import Mathlib

/-!
Shallow embedding of the WebSocket audio ingestion gateway
(`backend/app/ws/ingest.py`) and verification of its specified properties.

The per-connection handler `ws_ingest` is an event loop: each iteration
awaits `websocket.receive()` (which may raise `WebSocketDisconnect` or,
after a disconnect, `RuntimeError`), then classifies the received ASGI
message as a disconnect event, a text (control) message, or a binary audio
frame, updating the in-memory per-connection statistics record and sending
short text acknowledgements.  We embed one loop iteration as the pure
function `loopBody`, the loop as the fold `runLoop` over an environment
supplied event list, and the whole handler body (after `accept`) as
`ws_ingest_run`, which also performs the outer `except Exception` recovery.
The registry `_INGEST_STATS` is embedded as an association list, and the
stats endpoint `ingest_stats` as the function returning it.
-/

namespace MeetingIngest

/-- JSON values, the result type of Python's `json.loads`. -/
inductive Json where
  | null : Json
  | bool (b : Bool) : Json
  | num (n : Int) : Json
  | str (s : String) : Json
  | arr (elems : List Json) : Json
  | obj (fields : List (String × Json)) : Json

/-- The per-connection statistics record stored in `_INGEST_STATS[conn_id]`
(`ingest.py` lines 64-73).  Timestamps are naturals (`time.time()` values
supplied by the environment); `init` is the last stored init payload. -/
structure Record where
  total_bytes : Nat
  frames_received : Nat
  init : Option Json
  started_at : Nat
  last_message_at : Option Nat
  closed : Bool
  close_reason : Option String
  remote : String

/-- An ASGI message returned by `websocket.receive()`: a
`websocket.disconnect` event, a text message (carrying the result of
`json.loads`, `none` when the text is not valid JSON and
`json.JSONDecodeError` is raised), a binary frame, or anything else
(a message with neither a text nor a bytes payload). -/
inductive AsgiMessage where
  | disconnectEvent : AsgiMessage
  | text (parsed : Option Json) : AsgiMessage
  | bytes (chunk : List Nat) : AsgiMessage
  | other : AsgiMessage

/-- The outcome of one `await websocket.receive()` call: it returns a
message, raises `WebSocketDisconnect`, raises `RuntimeError` (receive
called after a disconnect), or raises some other exception (any
environment fault during the iteration, e.g. a failing send). -/
inductive RecvEvent where
  | disconnectExc : RecvEvent
  | runtimeError (msg : String) : RecvEvent
  | msg (m : AsgiMessage) : RecvEvent
  | fault (exc : String) : RecvEvent

/-- One environment step for the loop: the current `time.time()` value,
the receive outcome, and whether a debug-dump file write would succeed. -/
structure Ev where
  now : Nat
  recv : RecvEvent
  sinkOk : Bool

/-- How one loop iteration ends: fall through to the next iteration,
`break` out of the loop, or raise an exception to the outer handler. -/
inductive BodyResult where
  | next : BodyResult
  | stop : BodyResult
  | raised (exc : String) : BodyResult
deriving DecidableEq

/-- Output of one loop iteration: updated record, updated debug-dump file
contents, acknowledgements sent during the iteration, and how it ended. -/
structure BodyOut where
  record : Record
  dump : List Nat
  acks : List String
  result : BodyResult

/-- One iteration of the `while True` loop of `ws_ingest`
(`ingest.py` lines 88-146), for record `r` and debug-dump contents `d`.
`sinkCfg` is whether `_DEBUG_DUMP_PATH` is set (truthy).
Mirrors the source: the two receive exceptions mark the record closed and
break; otherwise `last_message_at` is set, then the message is classified.
A text payload that parses to a non-object makes `payload.get("type")`
raise `AttributeError`, which propagates to the outer handler. -/
def loopBody (sinkCfg : Bool) (r : Record) (d : List Nat) (e : Ev) : BodyOut :=
  match e.recv with
  | .disconnectExc =>
      ⟨{ r with closed := true, close_reason := some "disconnect" }, d, [], .stop⟩
  | .runtimeError m =>
      ⟨{ r with closed := true, close_reason := some ("runtime:" ++ m) }, d, [], .stop⟩
  | .fault exc => ⟨r, d, [], .raised exc⟩
  | .msg m =>
      let r1 := { r with last_message_at := some e.now }
      match m with
      | .disconnectEvent =>
          ⟨{ r1 with closed := true, close_reason := some "event:disconnect" }, d, [], .stop⟩
      | .text none => ⟨r1, d, ["ingest:text_non_json"], .next⟩
      | .text (some p) =>
          match p with
          | .obj fields =>
              match fields.lookup "type" with
              | some (.str s) =>
                  if s = "init" then
                    ⟨{ r1 with init := some (.obj fields) }, d, ["ingest:init:ok"], .next⟩
                  else
                    ⟨r1, d, ["ingest:unknown_text"], .next⟩
              | _ => ⟨r1, d, ["ingest:unknown_text"], .next⟩
          | _ => ⟨r1, d, [], .raised "AttributeError"⟩
      | .bytes chunk =>
          let r2 := { r1 with
                      total_bytes := r1.total_bytes + chunk.length,
                      frames_received := r1.frames_received + 1 }
          let d2 := if sinkCfg then (if e.sinkOk then d ++ chunk else d) else d
          let acks := if r2.frames_received % 20 = 0 then
                        ["ingest:frames=" ++ toString r2.frames_received]
                      else []
          ⟨r2, d2, acks, .next⟩
      | .other => ⟨r1, d, [], .next⟩

/-- How the loop as a whole ends: normal `break`, an exception
propagating out, or the supplied event list being exhausted while the
connection is still open (the handler would still be awaiting). -/
inductive LoopExit where
  | stopped : LoopExit
  | raised (exc : String) : LoopExit
  | pending : LoopExit
deriving DecidableEq

/-- Accumulated output of the loop. -/
structure LoopResult where
  record : Record
  dump : List Nat
  acks : List String
  exit : LoopExit

/-- The `while True` loop of `ws_ingest`, folded over the event list. -/
def runLoop (sinkCfg : Bool) (r : Record) (d : List Nat) : List Ev → LoopResult
  | [] => ⟨r, d, [], .pending⟩
  | e :: rest =>
      match loopBody sinkCfg r d e with
      | ⟨r1, d1, acks, .next⟩ =>
          let res := runLoop sinkCfg r1 d1 rest
          ⟨res.record, res.dump, acks ++ res.acks, res.exit⟩
      | ⟨r1, d1, acks, .stop⟩ => ⟨r1, d1, acks, .stopped⟩
      | ⟨r1, d1, acks, .raised exc⟩ => ⟨r1, d1, acks, .raised exc⟩

/-- `await websocket.close()` on the transport: Starlette raises a
`RuntimeError` if a close message was already sent.  The argument is
whether the transport is already closed. -/
def closeTransport (alreadyClosed : Bool) : Except String Bool :=
  if alreadyClosed then .error "Cannot call close once a close message has been sent."
  else .ok true

/-- The `try: await websocket.close() except Exception: pass` of the outer
error path (`ingest.py` lines 153-156): best effort, swallows any error.
Returns the resulting transport-closed state; total, so no exception
escapes. -/
def bestEffortClose (alreadyClosed : Bool) : Bool :=
  match closeTransport alreadyClosed with
  | .ok st => st
  | .error _ => alreadyClosed

/-- Whether the handler coroutine has returned or is still awaiting. -/
inductive HandlerExit where
  | finished : HandlerExit
  | pending : HandlerExit
deriving DecidableEq

/-- Result of running the whole handler body on an event list. -/
structure RunResult where
  record : Record
  dump : List Nat
  acks : List String
  transportClosed : Bool
  exit : HandlerExit

/-- The fresh record inserted at accept time (`ingest.py` lines 64-73).
`client` is `websocket.client` (host and port), `none` when unavailable. -/
def initRecord (startedAt : Nat) (client : Option (String × Nat)) : Record :=
  { total_bytes := 0
    frames_received := 0
    init := none
    started_at := startedAt
    last_message_at := none
    closed := false
    close_reason := none
    remote := match client with
              | some hp => hp.1 ++ ":" ++ toString hp.2
              | none => "unknown" }

/-- The body of `ws_ingest` after `accept` for a single connection:
create the record, send `"ingest:connected"`, reset the debug-dump file
best effort (`resetOk` says whether the removal succeeds; a failure is
swallowed and the old contents `d0` remain), run the loop, and apply the
outer `except Exception` recovery, which marks the record closed with an
`error:` reason and closes the transport best effort.  Total: no
exception escapes the handler. -/
def ws_ingest_run (sinkCfg : Bool) (startedAt : Nat) (client : Option (String × Nat))
    (d0 : List Nat) (resetOk : Bool) (transportClosed : Bool) (evs : List Ev) : RunResult :=
  let r0 := initRecord startedAt client
  let d1 := if sinkCfg then (if resetOk then [] else d0) else d0
  let L := runLoop sinkCfg r0 d1 evs
  match L.exit with
  | .pending => ⟨L.record, L.dump, "ingest:connected" :: L.acks, transportClosed, .pending⟩
  | .stopped => ⟨L.record, L.dump, "ingest:connected" :: L.acks, transportClosed, .finished⟩
  | .raised exc =>
      ⟨{ L.record with closed := true, close_reason := some ("error:" ++ exc) },
       L.dump, "ingest:connected" :: L.acks, bestEffortClose transportClosed, .finished⟩

/-- The in-memory registry `_INGEST_STATS`, an insertion-ordered mapping
from connection id to record, embedded as an association list. -/
abbrev Registry := List (String × Record)

/-- `GET /ws/ingest/stats` (`ingest.py` lines 33-43): returns the
registry. -/
def ingest_stats (reg : Registry) : Registry := reg

/-- Python dict assignment `_INGEST_STATS[conn_id] = record`: replace the
existing entry in place, or append a new one. -/
def setRecord : Registry → String → Record → Registry
  | [], cid, r => [(cid, r)]
  | (k, v) :: rest, cid, r =>
      if k = cid then (cid, r) :: rest else (k, v) :: setRecord rest cid r

/-- The registry-level effect of one whole `ws_ingest` call for connection
id `cid`: the registry afterwards maps `cid` to the final record, and the
acknowledgements are those sent during the run. -/
def ws_ingest_full (reg : Registry) (cid : String) (sinkCfg : Bool) (startedAt : Nat)
    (client : Option (String × Nat)) (d0 : List Nat) (resetOk : Bool)
    (transportClosed : Bool) (evs : List Ev) : Registry × List String :=
  let out := ws_ingest_run sinkCfg startedAt client d0 resetOk transportClosed evs
  (setRecord reg cid out.record, out.acks)

/-- An event whose iteration neither terminates the loop nor raises:
a text, binary, or empty message, where a text payload, if it parses,
parses to a JSON object. -/
def benign (e : Ev) : Bool :=
  match e.recv with
  | .msg .disconnectEvent => false
  | .msg (.text (some p)) => match p with | .obj _ => true | _ => false
  | .msg (.text none) => true
  | .msg (.bytes _) => true
  | .msg .other => true
  | _ => false

/-- The binary frame payload carried by an event, if it is one. -/
def frameOf (e : Ev) : Option (List Nat) :=
  match e.recv with
  | .msg (.bytes b) => some b
  | _ => none

/-- The binary frame payloads carried by an event list, in order. -/
def chunksOf (evs : List Ev) : List (List Nat) :=
  evs.filterMap frameOf

/-- The init control message of the C1 test scenario. -/
def c1InitPayload : Json :=
  .obj [("type", .str "init"), ("format", .str "audio/webm;codecs=opus")]

/-- C1 scenario events: the init message, then 45 binary frames of 1000
bytes each. -/
def c1Scenario : List Ev :=
  ⟨0, .msg (.text (some c1InitPayload)), true⟩ ::
    List.replicate 45 ⟨1, .msg (.bytes (List.replicate 1000 0)), true⟩

/-- Whether an acknowledgement string is a periodic frames
acknowledgement, i.e. starts with `"ingest:frames="`. -/
def isFramesAck (a : String) : Bool :=
  decide (a.data.take 14 = "ingest:frames=".data)

/-! ### Basic lemmas about one loop iteration -/

/-- A benign event falls through to the next iteration, and its effect on
the two counters is exactly the binary payload it carries: `total_bytes`
grows by the payload length and `frames_received` by one frame. -/
theorem loopBody_benign (cfg : Bool) (r : Record) (d : List Nat) (e : Ev)
    (h : benign e = true) :
    (loopBody cfg r d e).result = .next ∧
    (loopBody cfg r d e).record.total_bytes
      = r.total_bytes + ((frameOf e).elim 0 List.length) ∧
    (loopBody cfg r d e).record.frames_received
      = r.frames_received + ((frameOf e).elim 0 fun _ => 1) := by
  obtain ⟨t, recv, sk⟩ := e
  cases recv with
  | disconnectExc => simp [benign] at h
  | runtimeError m => simp [benign] at h
  | fault exc => simp [benign] at h
  | msg m =>
    cases m with
    | disconnectEvent => simp [benign] at h
    | text p =>
      cases p with
      | none => simp [loopBody, frameOf]
      | some j =>
        cases j with
        | obj fields =>
          simp only [loopBody, frameOf]
          rcases hl : fields.lookup "type" with _ | v
          · simp [hl]
          · cases v with
            | str s =>
              by_cases hs : s = "init" <;> simp [hl, hs]
            | _ => simp [hl]
        | null => simp [benign] at h
        | bool b => simp [benign] at h
        | num n => simp [benign] at h
        | str s => simp [benign] at h
        | arr xs => simp [benign] at h
    | bytes b => simp [loopBody, frameOf]
    | other => simp [loopBody, frameOf]

/-- An iteration that falls through (`next`) never marks the record
closed: `closed` is unchanged. -/
theorem loopBody_next_closed (cfg : Bool) (r : Record) (d : List Nat) (e : Ev)
    (h : (loopBody cfg r d e).result = .next) :
    (loopBody cfg r d e).record.closed = r.closed := by
  obtain ⟨t, recv, sk⟩ := e
  cases recv with
  | disconnectExc => simp [loopBody] at h
  | runtimeError m => simp [loopBody] at h
  | fault exc => simp [loopBody] at h
  | msg m =>
    cases m with
    | disconnectEvent => simp [loopBody] at h
    | text p =>
      cases p with
      | none => simp [loopBody]
      | some j =>
        cases j with
        | obj fields =>
          simp only [loopBody]
          rcases hl : fields.lookup "type" with _ | v
          · simp [hl]
          · cases v with
            | str s =>
              by_cases hs : s = "init" <;> simp [hl, hs]
            | _ => simp [hl]
        | null => simp [loopBody] at h
        | bool b => simp [loopBody] at h
        | num n => simp [loopBody] at h
        | str s => simp [loopBody] at h
        | arr xs => simp [loopBody] at h
    | bytes b => simp [loopBody]
    | other => simp [loopBody]

/-- An iteration that breaks out of the loop (`stop`) has marked the
record closed and set a close reason. -/
theorem loopBody_stop_closed (cfg : Bool) (r : Record) (d : List Nat) (e : Ev)
    (r1 : Record) (d1 : List Nat) (a1 : List String)
    (hb : loopBody cfg r d e = ⟨r1, d1, a1, .stop⟩) :
    r1.closed = true ∧ r1.close_reason.isSome = true := by
  obtain ⟨t, recv, sk⟩ := e
  cases recv with
  | disconnectExc =>
    simp only [loopBody, BodyOut.mk.injEq] at hb
    obtain ⟨h1, -, -, -⟩ := hb
    simp [← h1]
  | runtimeError m =>
    simp only [loopBody, BodyOut.mk.injEq] at hb
    obtain ⟨h1, -, -, -⟩ := hb
    simp [← h1]
  | fault exc => simp [loopBody] at hb
  | msg m =>
    cases m with
    | disconnectEvent =>
      simp only [loopBody, BodyOut.mk.injEq] at hb
      obtain ⟨h1, -, -, -⟩ := hb
      simp [← h1]
    | text p =>
      cases p with
      | none => simp [loopBody] at hb
      | some j =>
        cases j with
        | obj fields =>
          simp only [loopBody] at hb
          rcases hl : fields.lookup "type" with _ | v
          · rw [hl] at hb; simp at hb
          · rw [hl] at hb
            cases v with
            | str s => by_cases hs : s = "init" <;> simp [hs] at hb
            | _ => simp at hb
        | null => simp [loopBody] at hb
        | bool b => simp [loopBody] at hb
        | num n => simp [loopBody] at hb
        | str s => simp [loopBody] at hb
        | arr xs => simp [loopBody] at hb
    | bytes b => simp [loopBody] at hb
    | other => simp [loopBody] at hb

/-! ### Lemmas about the whole loop -/

/-- On a benign event list the loop never terminates on its own, and the
counters grow by exactly the binary frames carried by the list:
`total_bytes` by the sum of the payload lengths, `frames_received` by the
number of frames. -/
theorem runLoop_benign (cfg : Bool) (r : Record) (d : List Nat) (evs : List Ev)
    (h : ∀ e ∈ evs, benign e = true) :
    (runLoop cfg r d evs).exit = .pending ∧
    (runLoop cfg r d evs).record.total_bytes
      = r.total_bytes + ((chunksOf evs).map List.length).sum ∧
    (runLoop cfg r d evs).record.frames_received
      = r.frames_received + (chunksOf evs).length := by
  induction evs generalizing r d with
  | nil => simp [runLoop, chunksOf]
  | cons e rest ih =>
    have he : benign e = true := h e (List.mem_cons_self e rest)
    have hrest : ∀ x ∈ rest, benign x = true := fun x hx => h x (List.mem_cons_of_mem _ hx)
    obtain ⟨hnext, htot, hfr⟩ := loopBody_benign cfg r d e he
    rcases hb : loopBody cfg r d e with ⟨r1, d1, a1, res⟩
    rw [hb] at hnext htot hfr
    simp only at hnext htot hfr
    subst hnext
    obtain ⟨ihe, iht, ihf⟩ := ih r1 d1 hrest
    rcases hf : frameOf e with _ | b
    · have hc : chunksOf (e :: rest) = chunksOf rest := by
        simp [chunksOf, List.filterMap_cons, hf]
      rw [hf] at htot hfr
      simp only [Option.elim] at htot hfr
      refine ⟨by simpa [runLoop, hb] using ihe, ?_, ?_⟩ <;>
        simp only [runLoop, hb, hc] <;> omega
    · have hc : chunksOf (e :: rest) = b :: chunksOf rest := by
        simp [chunksOf, List.filterMap_cons, hf]
      rw [hf] at htot hfr
      simp only [Option.elim] at htot hfr
      refine ⟨by simpa [runLoop, hb] using ihe, ?_, ?_⟩ <;>
        simp only [runLoop, hb, hc, List.map_cons, List.sum_cons, List.length_cons] <;>
        omega

/-- If the loop halts (breaks or raises) on `xs`, appending further
events changes nothing: they are never processed. -/
theorem runLoop_append_halt (cfg : Bool) (r : Record) (d : List Nat) (xs ys : List Ev)
    (h : (runLoop cfg r d xs).exit ≠ .pending) :
    runLoop cfg r d (xs ++ ys) = runLoop cfg r d xs := by
  induction xs generalizing r d with
  | nil => simp [runLoop] at h
  | cons e rest ih =>
    rcases hb : loopBody cfg r d e with ⟨r1, d1, a1, res⟩
    cases res with
    | next =>
      have h' : (runLoop cfg r1 d1 rest).exit ≠ .pending := by
        simpa [runLoop, hb] using h
      simp only [List.cons_append, runLoop, hb, List.append_eq, ih r1 d1 h']
    | stop => simp only [List.cons_append, runLoop, hb]
    | raised exc => simp only [List.cons_append, runLoop, hb]

/-- If the loop is still pending after `xs`, running `xs ++ ys` is
running `ys` from where `xs` left off, with the acknowledgements
concatenated. -/
theorem runLoop_append_pending (cfg : Bool) (r : Record) (d : List Nat) (xs ys : List Ev)
    (L : LoopResult) (hL : runLoop cfg r d xs = L) (h : L.exit = .pending) :
    runLoop cfg r d (xs ++ ys) =
      ⟨(runLoop cfg L.record L.dump ys).record,
       (runLoop cfg L.record L.dump ys).dump,
       L.acks ++ (runLoop cfg L.record L.dump ys).acks,
       (runLoop cfg L.record L.dump ys).exit⟩ := by
  induction xs generalizing r d L with
  | nil =>
    simp only [runLoop] at hL
    subst hL
    simp [runLoop]
  | cons e rest ih =>
    rcases hb : loopBody cfg r d e with ⟨r1, d1, a1, res⟩
    cases res with
    | next =>
      simp only [runLoop, hb] at hL
      subst hL
      simp only at h
      rw [List.cons_append]
      simp only [runLoop, hb]
      rw [ih r1 d1 (runLoop cfg r1 d1 rest) rfl h]
      simp [List.append_assoc]
    | stop =>
      simp only [runLoop, hb] at hL
      subst hL
      simp at h
    | raised exc =>
      simp only [runLoop, hb] at hL
      subst hL
      simp at h

/-- While the loop is still pending, `closed` is what it started as:
no fall-through iteration touches it. -/
theorem runLoop_pending_closed (cfg : Bool) (r : Record) (d : List Nat) (evs : List Ev)
    (h : (runLoop cfg r d evs).exit = .pending) :
    (runLoop cfg r d evs).record.closed = r.closed := by
  induction evs generalizing r d with
  | nil => simp [runLoop]
  | cons e rest ih =>
    rcases hb : loopBody cfg r d e with ⟨r1, d1, a1, res⟩
    cases res with
    | next =>
      have hcl := loopBody_next_closed cfg r d e (by rw [hb])
      rw [hb] at hcl
      simp only at hcl
      have h' : (runLoop cfg r1 d1 rest).exit = .pending := by
        simpa [runLoop, hb] using h
      simp only [runLoop, hb]
      rw [ih r1 d1 h', hcl]
    | stop => simp [runLoop, hb] at h
    | raised exc => simp [runLoop, hb] at h

/-- If the loop broke out normally, the final record is marked closed
with a close reason set. -/
theorem runLoop_stopped_closed (cfg : Bool) (r : Record) (d : List Nat) (evs : List Ev)
    (h : (runLoop cfg r d evs).exit = .stopped) :
    (runLoop cfg r d evs).record.closed = true ∧
    (runLoop cfg r d evs).record.close_reason.isSome = true := by
  induction evs generalizing r d with
  | nil => simp [runLoop] at h
  | cons e rest ih =>
    rcases hb : loopBody cfg r d e with ⟨r1, d1, a1, res⟩
    cases res with
    | next =>
      have h' : (runLoop cfg r1 d1 rest).exit = .stopped := by
        simpa [runLoop, hb] using h
      simpa [runLoop, hb] using ih r1 d1 h'
    | stop =>
      have := loopBody_stop_closed cfg r d e r1 d1 a1 hb
      simpa [runLoop, hb] using this
    | raised exc => simp [runLoop, hb] at h

/-! ### Lemmas about the registry and the whole handler -/

/-- Writing one connection's record never changes what the registry
holds for any other connection id. -/
theorem lookup_setRecord_ne (reg : Registry) (cid oid : String) (r : Record)
    (h : oid ≠ cid) : (setRecord reg cid r).lookup oid = reg.lookup oid := by
  have hbe : (oid == cid) = false := beq_eq_false_iff_ne.mpr h
  induction reg with
  | nil => simp [setRecord, List.lookup, hbe]
  | cons kv rest ih =>
    obtain ⟨k, v⟩ := kv
    by_cases hk : k = cid
    · subst hk
      simp [setRecord, List.lookup, hbe]
    · simp [setRecord, hk, List.lookup, ih]

/-- While the loop is pending, the handler's record is the loop's. -/
theorem ws_ingest_run_pending_record (cfg : Bool) (s : Nat) (client : Option (String × Nat))
    (d0 : List Nat) (ro tSt : Bool) (evs : List Ev)
    (h : (runLoop cfg (initRecord s client)
        (if cfg = true then (if ro = true then [] else d0) else d0) evs).exit = .pending) :
    (ws_ingest_run cfg s client d0 ro tSt evs).record
      = (runLoop cfg (initRecord s client)
          (if cfg = true then (if ro = true then [] else d0) else d0) evs).record := by
  simp only [ws_ingest_run]
  rw [h]

/-- After a benign prefix `xs`, an event whose iteration breaks the loop
with no acknowledgement and record transformation `f` makes the whole
handler finish with `f` applied to the prefix record; later events `ys`
are never processed. -/
theorem ws_ingest_run_stop_after (cfg : Bool) (s : Nat) (client : Option (String × Nat))
    (d0 : List Nat) (ro tSt : Bool) (xs : List Ev) (e : Ev) (ys : List Ev)
    (f : Record → Record)
    (hben : ∀ x ∈ xs, benign x = true)
    (hstop : ∀ (r : Record) (d : List Nat), loopBody cfg r d e = ⟨f r, d, [], .stop⟩) :
    ws_ingest_run cfg s client d0 ro tSt (xs ++ e :: ys) =
      ⟨f (ws_ingest_run cfg s client d0 ro tSt xs).record,
       (ws_ingest_run cfg s client d0 ro tSt xs).dump,
       (ws_ingest_run cfg s client d0 ro tSt xs).acks,
       tSt, .finished⟩ := by
  have hpend := (runLoop_benign cfg (initRecord s client)
      (if cfg = true then (if ro = true then [] else d0) else d0) xs hben).1
  have happ := runLoop_append_pending cfg (initRecord s client)
      (if cfg = true then (if ro = true then [] else d0) else d0) xs (e :: ys) _ rfl hpend
  have hstep : runLoop cfg
      (runLoop cfg (initRecord s client)
        (if cfg = true then (if ro = true then [] else d0) else d0) xs).record
      (runLoop cfg (initRecord s client)
        (if cfg = true then (if ro = true then [] else d0) else d0) xs).dump (e :: ys)
      = ⟨f (runLoop cfg (initRecord s client)
            (if cfg = true then (if ro = true then [] else d0) else d0) xs).record,
          (runLoop cfg (initRecord s client)
            (if cfg = true then (if ro = true then [] else d0) else d0) xs).dump,
          [], .stopped⟩ := by
    simp [runLoop, hstop]
  rw [hstep] at happ
  simp only [ws_ingest_run]
  rw [happ, hpend]
  simp

/-! ### The claims -/

/-- C1: for every sequence of messages processed on a single connection,
after the handler has processed the binary frames of the stream the
record's `total_bytes` equals the exact sum of the byte lengths of those
frames and `frames_received` equals their number; in particular this
holds for the final record after a benign stream followed by a
disconnect. -/
theorem C1_frame_accounting (cfg : Bool) (s : Nat) (client : Option (String × Nat))
    (d0 : List Nat) (ro tSt : Bool) (evs : List Ev) (t : Nat) (sk : Bool)
    (hben : ∀ e ∈ evs, benign e = true) :
    (ws_ingest_run cfg s client d0 ro tSt (evs ++ [⟨t, .disconnectExc, sk⟩])).record.total_bytes
      = ((chunksOf evs).map List.length).sum ∧
    (ws_ingest_run cfg s client d0 ro tSt (evs ++ [⟨t, .disconnectExc, sk⟩])).record.frames_received
      = (chunksOf evs).length ∧
    (ws_ingest_run cfg s client d0 ro tSt (evs ++ [⟨t, .disconnectExc, sk⟩])).record.closed
      = true := by
  have hstop : ∀ (r : Record) (d : List Nat),
      loopBody cfg r d ⟨t, .disconnectExc, sk⟩
        = ⟨{ r with closed := true, close_reason := some "disconnect" }, d, [], .stop⟩ :=
    fun r d => rfl
  have h := ws_ingest_run_stop_after cfg s client d0 ro tSt evs ⟨t, .disconnectExc, sk⟩ []
      (fun r => { r with closed := true, close_reason := some "disconnect" }) hben hstop
  rw [h]
  have hb := runLoop_benign cfg (initRecord s client)
      (if cfg = true then (if ro = true then [] else d0) else d0) evs hben
  have hrec := ws_ingest_run_pending_record cfg s client d0 ro tSt evs hb.1
  simp only [hrec]
  refine ⟨?_, ?_, ?_⟩
  · simpa [initRecord] using hb.2.1
  · simpa [initRecord] using hb.2.2
  · trivial

set_option maxRecDepth 100000 in
/-- C1 witness: the spec's scenario — init, 45 frames of 1000 bytes,
disconnect — ends with `total_bytes = 45000` and `frames_received = 45`. -/
theorem C1_frame_accounting_witness :
    (∀ e ∈ c1Scenario, benign e = true) ∧
    (ws_ingest_run true 0 (some ("127.0.0.1", 54321)) [] true false
        (c1Scenario ++ [⟨2, .disconnectExc, true⟩])).record.total_bytes = 45000 ∧
    (ws_ingest_run true 0 (some ("127.0.0.1", 54321)) [] true false
        (c1Scenario ++ [⟨2, .disconnectExc, true⟩])).record.frames_received = 45 ∧
    (ws_ingest_run true 0 (some ("127.0.0.1", 54321)) [] true false
        (c1Scenario ++ [⟨2, .disconnectExc, true⟩])).record.closed = true := by
  have hben : ∀ e ∈ c1Scenario, benign e = true := by decide
  obtain ⟨h1, h2, h3⟩ := C1_frame_accounting true 0 (some ("127.0.0.1", 54321)) [] true false
    c1Scenario 2 true hben
  exact ⟨hben, h1.trans (by decide), h2.trans (by decide), h3⟩

/-- C2: whenever the handler terminates (in any of the three termination
cases: disconnect signal, post-close transport error, or any other
unexpected fault) the record's `closed` and `close_reason` are set before
it returns; the handler itself is a total function, so no exception
escapes it; closing an already-closed transport is swallowed and never
raises; and a run only ever touches its own connection's registry entry,
so no fault affects any other connection. -/
theorem C2_no_escape (cfg : Bool) (s : Nat) (client : Option (String × Nat))
    (d0 : List Nat) (ro tSt : Bool) (evs : List Ev)
    (reg : Registry) (cid oid : String)
    (hex : (ws_ingest_run cfg s client d0 ro tSt evs).exit = .finished)
    (hne : oid ≠ cid) :
    (ws_ingest_run cfg s client d0 ro tSt evs).record.closed = true ∧
    (ws_ingest_run cfg s client d0 ro tSt evs).record.close_reason.isSome = true ∧
    bestEffortClose true = true ∧
    ((ws_ingest_full reg cid cfg s client d0 ro tSt evs).1).lookup oid = reg.lookup oid := by
  have key : (ws_ingest_run cfg s client d0 ro tSt evs).record.closed = true ∧
      (ws_ingest_run cfg s client d0 ro tSt evs).record.close_reason.isSome = true := by
    simp only [ws_ingest_run] at hex ⊢
    rcases hE : (runLoop cfg (initRecord s client)
        (if cfg = true then (if ro = true then [] else d0) else d0) evs).exit with _ | exc | _
    · simpa using runLoop_stopped_closed cfg _ _ evs hE
    · simp
    · rw [hE] at hex
      simp at hex
  exact ⟨key.1, key.2, rfl, lookup_setRecord_ne reg cid oid _ hne⟩

/-- C2 witness: a connection whose only event is an unexpected fault
finishes closed with a reason, and an unrelated registry entry is
untouched. -/
theorem C2_no_escape_witness :
    (ws_ingest_run true 0 none [] true false [⟨0, .fault "boom", true⟩]).exit = .finished ∧
    ("other" : String) ≠ "conn" ∧
    ((ws_ingest_run true 0 none [] true false [⟨0, .fault "boom", true⟩]).record.closed = true ∧
     (ws_ingest_run true 0 none [] true false
        [⟨0, .fault "boom", true⟩]).record.close_reason.isSome = true ∧
     bestEffortClose true = true ∧
     ((ws_ingest_full [("other", initRecord 0 none)] "conn" true 0 none [] true false
        [⟨0, .fault "boom", true⟩]).1).lookup "other"
       = ([("other", initRecord 0 none)] : Registry).lookup "other") := by
  refine ⟨by decide, by decide, ?_⟩
  exact C2_no_escape true 0 none [] true false [⟨0, .fault "boom", true⟩]
    [("other", initRecord 0 none)] "conn" "other" (by decide) (by decide)

/-- C3 counterexample: a transport-level error from reading after the
peer closed (Starlette's `RuntimeError`) does not set
`close_reason = "disconnect"`; the code sets a `runtime:`-tagged reason
instead, so the two disconnect cases are not treated identically. -/
theorem C3_counterexample :
    (ws_ingest_run true 0 none [] true false
        [⟨5, .runtimeError "receive after disconnect", true⟩]).record.close_reason
      ≠ some "disconnect" := by decide

/-- C3 (amended): when the transport reports the client closed, the
handler marks the record `closed = true`, sends no acknowledgement for
that message, and processes no further messages; the close reason is
`"disconnect"` for an explicit `WebSocketDisconnect`, `"runtime:<exc>"`
for a post-close read `RuntimeError`, and `"event:disconnect"` for a
`websocket.disconnect` event (which also updates `last_message_at`). -/
theorem C3_disconnect_cases (cfg : Bool) (s : Nat) (client : Option (String × Nat))
    (d0 : List Nat) (ro tSt : Bool) (xs ys : List Ev) (t : Nat) (sk : Bool) (m : String)
    (hben : ∀ x ∈ xs, benign x = true) :
    (ws_ingest_run cfg s client d0 ro tSt (xs ++ ⟨t, .disconnectExc, sk⟩ :: ys) =
      ⟨{ (ws_ingest_run cfg s client d0 ro tSt xs).record with
           closed := true, close_reason := some "disconnect" },
       (ws_ingest_run cfg s client d0 ro tSt xs).dump,
       (ws_ingest_run cfg s client d0 ro tSt xs).acks, tSt, .finished⟩) ∧
    (ws_ingest_run cfg s client d0 ro tSt (xs ++ ⟨t, .runtimeError m, sk⟩ :: ys) =
      ⟨{ (ws_ingest_run cfg s client d0 ro tSt xs).record with
           closed := true, close_reason := some ("runtime:" ++ m) },
       (ws_ingest_run cfg s client d0 ro tSt xs).dump,
       (ws_ingest_run cfg s client d0 ro tSt xs).acks, tSt, .finished⟩) ∧
    (ws_ingest_run cfg s client d0 ro tSt (xs ++ ⟨t, .msg .disconnectEvent, sk⟩ :: ys) =
      ⟨{ (ws_ingest_run cfg s client d0 ro tSt xs).record with
           last_message_at := some t, closed := true,
           close_reason := some "event:disconnect" },
       (ws_ingest_run cfg s client d0 ro tSt xs).dump,
       (ws_ingest_run cfg s client d0 ro tSt xs).acks, tSt, .finished⟩) :=
  ⟨ws_ingest_run_stop_after cfg s client d0 ro tSt xs ⟨t, .disconnectExc, sk⟩ ys
      (fun r => { r with closed := true, close_reason := some "disconnect" })
      hben (fun _ _ => rfl),
   ws_ingest_run_stop_after cfg s client d0 ro tSt xs ⟨t, .runtimeError m, sk⟩ ys
      (fun r => { r with closed := true, close_reason := some ("runtime:" ++ m) })
      hben (fun _ _ => rfl),
   ws_ingest_run_stop_after cfg s client d0 ro tSt xs ⟨t, .msg .disconnectEvent, sk⟩ ys
      (fun r =>
        { r with last_message_at := some t, closed := true,
                 close_reason := some "event:disconnect" })
      hben (fun _ _ => rfl)⟩

/-- C3 witness: the three disconnect shapes at a concrete instance, with
a stray later message never processed. -/
theorem C3_disconnect_cases_witness :
    (∀ x ∈ ([] : List Ev), benign x = true) ∧
    (ws_ingest_run true 7 none [] true false
        ([] ++ ⟨9, .disconnectExc, true⟩ :: [⟨10, .msg (.bytes [1, 2]), true⟩]) =
      ⟨{ (ws_ingest_run true 7 none [] true false []).record with
           closed := true, close_reason := some "disconnect" },
       (ws_ingest_run true 7 none [] true false []).dump,
       (ws_ingest_run true 7 none [] true false []).acks, false, .finished⟩) ∧
    (ws_ingest_run true 7 none [] true false
        ([] ++ ⟨9, .runtimeError "x", true⟩ :: [⟨10, .msg (.bytes [1, 2]), true⟩]) =
      ⟨{ (ws_ingest_run true 7 none [] true false []).record with
           closed := true, close_reason := some ("runtime:" ++ "x") },
       (ws_ingest_run true 7 none [] true false []).dump,
       (ws_ingest_run true 7 none [] true false []).acks, false, .finished⟩) ∧
    (ws_ingest_run true 7 none [] true false
        ([] ++ ⟨9, .msg .disconnectEvent, true⟩ :: [⟨10, .msg (.bytes [1, 2]), true⟩]) =
      ⟨{ (ws_ingest_run true 7 none [] true false []).record with
           last_message_at := some 9, closed := true,
           close_reason := some "event:disconnect" },
       (ws_ingest_run true 7 none [] true false []).dump,
       (ws_ingest_run true 7 none [] true false []).acks, false, .finished⟩) := by
  have h := C3_disconnect_cases true 7 none [] true false []
    [⟨10, .msg (.bytes [1, 2]), true⟩] 9 true "x" (by decide)
  exact ⟨by decide, h.1, h.2.1, h.2.2⟩

/-- C4: processing a binary frame sends the acknowledgement
`"ingest:frames=N"` if and only if the new `frames_received` count N is a
positive multiple of 20, and then reports exactly that count; no
acknowledgement is sent for other frames, and no message that is not a
binary frame ever produces a frames acknowledgement. -/
theorem C4_frames_ack (cfg : Bool) (r : Record) (d : List Nat) (t : Nat) (sk : Bool)
    (b : List Nat) (e2 : Ev)
    (hnb : ∀ b2 : List Nat, e2.recv ≠ .msg (.bytes b2)) :
    (loopBody cfg r d ⟨t, .msg (.bytes b), sk⟩).record.frames_received
      = r.frames_received + 1 ∧
    (loopBody cfg r d ⟨t, .msg (.bytes b), sk⟩).acks
      = (if (r.frames_received + 1) % 20 = 0 then
          ["ingest:frames=" ++ toString (r.frames_received + 1)] else []) ∧
    ((loopBody cfg r d ⟨t, .msg (.bytes b), sk⟩).acks ≠ [] ↔
      (0 < r.frames_received + 1 ∧ (r.frames_received + 1) % 20 = 0)) ∧
    (∀ a ∈ (loopBody cfg r d e2).acks, isFramesAck a = false) := by
  refine ⟨rfl, rfl, ?_, ?_⟩
  · by_cases h20 : (r.frames_received + 1) % 20 = 0 <;> simp [loopBody, h20]
  · obtain ⟨t2, recv2, sk2⟩ := e2
    cases recv2 with
    | disconnectExc => simp [loopBody]
    | runtimeError m => simp [loopBody]
    | fault exc => simp [loopBody]
    | msg m =>
      cases m with
      | disconnectEvent => simp [loopBody]
      | text p =>
        cases p with
        | none =>
          intro a ha
          simp [loopBody] at ha
          subst ha
          decide
        | some j =>
          cases j with
          | obj fields =>
            intro a ha
            simp only [loopBody] at ha
            rcases hl : fields.lookup "type" with _ | v
            · rw [hl] at ha
              simp at ha
              subst ha
              decide
            · rw [hl] at ha
              cases v with
              | str s2 =>
                by_cases hs : s2 = "init"
                · simp [hs] at ha
                  subst ha
                  decide
                · simp [hs] at ha
                  subst ha
                  decide
              | null => simp at ha; subst ha; decide
              | bool b3 => simp at ha; subst ha; decide
              | num n => simp at ha; subst ha; decide
              | arr xs => simp at ha; subst ha; decide
              | obj f2 => simp at ha; subst ha; decide
          | null => simp [loopBody]
          | bool b3 => simp [loopBody]
          | num n => simp [loopBody]
          | str s2 => simp [loopBody]
          | arr xs => simp [loopBody]
      | bytes b2 => exact absurd rfl (hnb b2)
      | other => simp [loopBody]

/-- C4 witness: the 20th frame elicits exactly `"ingest:frames=20"`, and
a text message elicits no frames acknowledgement. -/
theorem C4_frames_ack_witness :
    (∀ b2 : List Nat,
      (⟨3, .msg (.text none), true⟩ : Ev).recv ≠ .msg (.bytes b2)) ∧
    ((loopBody true { initRecord 0 none with frames_received := 19 } [] ⟨3, .msg (.bytes [7]), true⟩).record.frames_received
        = ({ initRecord 0 none with frames_received := 19 } : Record).frames_received + 1 ∧
     (loopBody true { initRecord 0 none with frames_received := 19 } [] ⟨3, .msg (.bytes [7]), true⟩).acks
        = (if (({ initRecord 0 none with frames_received := 19 } : Record).frames_received + 1) % 20 = 0 then
            ["ingest:frames=" ++ toString (({ initRecord 0 none with frames_received := 19 } : Record).frames_received + 1)]
           else []) ∧
     ((loopBody true { initRecord 0 none with frames_received := 19 } [] ⟨3, .msg (.bytes [7]), true⟩).acks ≠ [] ↔
        (0 < ({ initRecord 0 none with frames_received := 19 } : Record).frames_received + 1 ∧
          (({ initRecord 0 none with frames_received := 19 } : Record).frames_received + 1) % 20 = 0)) ∧
     (∀ a ∈ (loopBody true { initRecord 0 none with frames_received := 19 } []
          ⟨3, .msg (.text none), true⟩).acks, isFramesAck a = false)) := by
  refine ⟨?_, ?_⟩
  · intro b2 h
    simp at h
  · exact C4_frames_ack true { initRecord 0 none with frames_received := 19 } [] 3 true
      [7] ⟨3, .msg (.text none), true⟩ (by intro b2 h; simp at h)

/-- C5: a text message whose payload fails to parse as JSON changes only
`last_message_at` — `total_bytes`, `frames_received`, `init`, `closed`,
`close_reason`, the debug dump — are all unchanged; exactly one
`"ingest:text_non_json"` acknowledgement is sent; and the loop
continues. -/
theorem C5_non_json_text (cfg : Bool) (r : Record) (d : List Nat) (t : Nat) (sk : Bool) :
    (loopBody cfg r d ⟨t, .msg (.text none), sk⟩).record.total_bytes = r.total_bytes ∧
    (loopBody cfg r d ⟨t, .msg (.text none), sk⟩).record.frames_received
      = r.frames_received ∧
    (loopBody cfg r d ⟨t, .msg (.text none), sk⟩).record.init = r.init ∧
    (loopBody cfg r d ⟨t, .msg (.text none), sk⟩).record.closed = r.closed ∧
    (loopBody cfg r d ⟨t, .msg (.text none), sk⟩).record.close_reason = r.close_reason ∧
    (loopBody cfg r d ⟨t, .msg (.text none), sk⟩).record.last_message_at = some t ∧
    (loopBody cfg r d ⟨t, .msg (.text none), sk⟩).dump = d ∧
    (loopBody cfg r d ⟨t, .msg (.text none), sk⟩).acks = ["ingest:text_non_json"] ∧
    (loopBody cfg r d ⟨t, .msg (.text none), sk⟩).result = .next :=
  ⟨rfl, rfl, rfl, rfl, rfl, rfl, rfl, rfl, rfl⟩

/-- C6: a text message that parses as a JSON object whose `"type"` field
is `"init"` stores the whole parsed payload verbatim as `init`, replacing
any prior value regardless of what it was, updates `last_message_at`, and
sends the `"ingest:init:ok"` acknowledgement; only `"type"` is
inspected. -/
theorem C6_init_stores_payload (cfg : Bool) (r : Record) (d : List Nat) (t : Nat) (sk : Bool)
    (fields : List (String × Json))
    (hty : fields.lookup "type" = some (.str "init")) :
    (loopBody cfg r d ⟨t, .msg (.text (some (.obj fields))), sk⟩).record
      = { r with init := some (.obj fields), last_message_at := some t } ∧
    (loopBody cfg r d ⟨t, .msg (.text (some (.obj fields))), sk⟩).acks
      = ["ingest:init:ok"] ∧
    (loopBody cfg r d ⟨t, .msg (.text (some (.obj fields))), sk⟩).result = .next := by
  simp only [loopBody]
  rw [hty]
  simp

/-- C6 witness: a second, different init message replaces a previously
stored init payload wholesale. -/
theorem C6_init_stores_payload_witness :
    (([("type", Json.str "init"), ("format", Json.str "audio/webm;codecs=opus")].lookup "type")
        = some (Json.str "init")) ∧
    ((loopBody true
        { initRecord 0 none with init := some (.obj [("type", .str "init"), ("format", .str "old")]) }
        [] ⟨4, .msg (.text (some (.obj [("type", Json.str "init"), ("format", Json.str "audio/webm;codecs=opus")]))), true⟩).record
      = { ({ initRecord 0 none with init := some (.obj [("type", .str "init"), ("format", .str "old")]) } : Record) with
            init := some (.obj [("type", Json.str "init"), ("format", Json.str "audio/webm;codecs=opus")]),
            last_message_at := some 4 } ∧
     (loopBody true
        { initRecord 0 none with init := some (.obj [("type", .str "init"), ("format", .str "old")]) }
        [] ⟨4, .msg (.text (some (.obj [("type", Json.str "init"), ("format", Json.str "audio/webm;codecs=opus")]))), true⟩).acks
      = ["ingest:init:ok"] ∧
     (loopBody true
        { initRecord 0 none with init := some (.obj [("type", .str "init"), ("format", .str "old")]) }
        [] ⟨4, .msg (.text (some (.obj [("type", Json.str "init"), ("format", Json.str "audio/webm;codecs=opus")]))), true⟩).result
      = .next) :=
  ⟨rfl, C6_init_stores_payload true
      { initRecord 0 none with init := some (.obj [("type", .str "init"), ("format", .str "old")]) }
      [] 4 true [("type", Json.str "init"), ("format", Json.str "audio/webm;codecs=opus")] rfl⟩

/-- C7: the `closed` flag starts out false and transitions to true at
most once: once a run has produced a closed record, processing any
further stray events changes nothing at all — the whole run result,
hence every field of the record, is exactly that of the shorter run. -/
theorem C7_closed_is_final (cfg : Bool) (s : Nat) (client : Option (String × Nat))
    (d0 : List Nat) (ro tSt : Bool) (evs1 evs2 : List Ev)
    (h : (ws_ingest_run cfg s client d0 ro tSt evs1).record.closed = true) :
    (ws_ingest_run cfg s client d0 ro tSt []).record.closed = false ∧
    ws_ingest_run cfg s client d0 ro tSt (evs1 ++ evs2)
      = ws_ingest_run cfg s client d0 ro tSt evs1 := by
  constructor
  · simp [ws_ingest_run, runLoop, initRecord]
  · have hne : (runLoop cfg (initRecord s client)
        (if cfg = true then (if ro = true then [] else d0) else d0) evs1).exit ≠ .pending := by
      intro hp
      have hc := runLoop_pending_closed cfg _ _ evs1 hp
      have hrec := ws_ingest_run_pending_record cfg s client d0 ro tSt evs1 hp
      rw [hrec, hc] at h
      simp [initRecord] at h
    have hh := runLoop_append_halt cfg (initRecord s client)
      (if cfg = true then (if ro = true then [] else d0) else d0) evs1 evs2 hne
    simp only [ws_ingest_run]
    rw [hh]

/-- C7 witness: after a disconnect closes the record, injecting a stray
binary frame leaves the run result untouched. -/
theorem C7_closed_is_final_witness :
    (ws_ingest_run true 0 none [] true false [⟨0, .disconnectExc, true⟩]).record.closed
      = true ∧
    ((ws_ingest_run true 0 none [] true false []).record.closed = false ∧
     ws_ingest_run true 0 none [] true false
        ([⟨0, .disconnectExc, true⟩] ++ [⟨1, .msg (.bytes [1, 2, 3]), true⟩])
       = ws_ingest_run true 0 none [] true false [⟨0, .disconnectExc, true⟩]) := by
  refine ⟨by decide, ?_⟩
  exact C7_closed_is_final true 0 none [] true false [⟨0, .disconnectExc, true⟩]
    [⟨1, .msg (.bytes [1, 2, 3]), true⟩] (by decide)

/-- C8: the Frame Sink step is pure side channel: for a binary frame,
the resulting record and acknowledgements are identical whatever the
sink configuration and whether or not the dump write fails, the loop
always continues, the frame is still counted, and with no sink
configured the dump is untouched. -/
theorem C8_sink_isolated (r : Record) (d : List Nat) (t : Nat) (b : List Nat)
    (cfg cfg2 sk sk2 : Bool) :
    (loopBody cfg r d ⟨t, .msg (.bytes b), sk⟩).record
      = (loopBody cfg2 r d ⟨t, .msg (.bytes b), sk2⟩).record ∧
    (loopBody cfg r d ⟨t, .msg (.bytes b), sk⟩).acks
      = (loopBody cfg2 r d ⟨t, .msg (.bytes b), sk2⟩).acks ∧
    (loopBody cfg r d ⟨t, .msg (.bytes b), sk⟩).result = .next ∧
    (loopBody cfg r d ⟨t, .msg (.bytes b), sk⟩).record.frames_received
      = r.frames_received + 1 ∧
    (loopBody false r d ⟨t, .msg (.bytes b), sk⟩).dump = d :=
  ⟨rfl, rfl, rfl, rfl, rfl⟩

/-- C9: the stats query returns the registry itself — a pure read that
mutates nothing — and every stored record, closed connections included,
appears in the returned mapping. -/
theorem C9_stats_getAll (reg : Registry) (p : String × Record) (hp : p ∈ reg) :
    ingest_stats reg = reg ∧ p ∈ ingest_stats reg :=
  ⟨rfl, hp⟩

/-- C9 witness: a registry holding one closed connection record is
returned whole, closed record included. -/
theorem C9_stats_getAll_witness :
    (("c1", { initRecord 0 none with closed := true, close_reason := some "disconnect" })
        ∈ ([("c1", { initRecord 0 none with closed := true, close_reason := some "disconnect" })] : Registry)) ∧
    (ingest_stats [("c1", { initRecord 0 none with closed := true, close_reason := some "disconnect" })]
        = [("c1", { initRecord 0 none with closed := true, close_reason := some "disconnect" })] ∧
     ("c1", { initRecord 0 none with closed := true, close_reason := some "disconnect" })
        ∈ ingest_stats [("c1", { initRecord 0 none with closed := true, close_reason := some "disconnect" })]) :=
  ⟨List.mem_cons_self _ _,
   C9_stats_getAll _ _ (List.mem_cons_self _ _)⟩

/-- C10: an empty binary frame still counts as a frame: it leaves
`total_bytes` unchanged, increments `frames_received` by one, updates
`last_message_at`, continues the loop, and participates in the
every-20th-frame acknowledgement cadence exactly like any other frame. -/
theorem C10_empty_frame (cfg : Bool) (r : Record) (d : List Nat) (t : Nat) (sk : Bool) :
    (loopBody cfg r d ⟨t, .msg (.bytes []), sk⟩).record.total_bytes = r.total_bytes ∧
    (loopBody cfg r d ⟨t, .msg (.bytes []), sk⟩).record.frames_received
      = r.frames_received + 1 ∧
    (loopBody cfg r d ⟨t, .msg (.bytes []), sk⟩).record.last_message_at = some t ∧
    (loopBody cfg r d ⟨t, .msg (.bytes []), sk⟩).result = .next ∧
    (loopBody cfg r d ⟨t, .msg (.bytes []), sk⟩).acks
      = (if (r.frames_received + 1) % 20 = 0 then
          ["ingest:frames=" ++ toString (r.frames_received + 1)] else []) :=
  ⟨rfl, rfl, rfl, rfl, rfl⟩

end MeetingIngest
